import Mathlib

/-!
# Truth Has a Half Life — verification of the core game model

Shallow embedding of the evidence/scene model, the snapshot ledger, the
ending selector and the input/update dispatch of
`truth_has_a_half_life.py`.  Pygame surfaces, fonts, sounds and all
draw-only data (positions, rotations, camera shake, parallax) are outside
the embedded core; machine floats are modelled as rationals.
-/

namespace TruthHalfLife

/-! ## Artifact filename parsing (`_parse_artifact_suspect_and_points`) -/

/-- Python `str.replace(".png", "")`: delete every (non-overlapping,
left-to-right) occurrence of `".png"`. -/
def replacePng : List Char → List Char
  | '.' :: 'p' :: 'n' :: 'g' :: rest => replacePng rest
  | c :: rest => c :: replacePng rest
  | [] => []

/-- Python `str.isdigit()` on ASCII strings: nonempty and all digits. -/
def pyIsdigit (l : List Char) : Bool :=
  !l.isEmpty && l.all Char.isDigit

/-- Python `base.startswith("r")`. -/
def startsWithR : List Char → Bool
  | c :: _ => c == 'r'
  | [] => false

/-- The dict `{"q": "queen", "c": "chef", "g": "goblin"}` of the source. -/
def suspectOfChar (c : Char) : String :=
  if c = 'q' then "queen" else if c = 'c' then "chef"
  else if c = 'g' then "goblin" else ""

/-- The `for c in base[1:]` loop of the source: collect the leading digit
run, stopping at the first non-digit. -/
def numStrLoop : List Char → List Char
  | [] => []
  | c :: rest => if c.isDigit then c :: numStrLoop rest else []

/-- Python `int(num_str)` for a digit string. -/
def natOfDigits (l : List Char) : Nat :=
  l.foldl (fun n c => 10 * n + (c.toNat - 48)) 0

/-- `_parse_artifact_suspect_and_points` (source lines 479–494), exact on
ASCII inputs: lowercase, delete `".png"` occurrences, handle the decoy
`rN` names, else map the first letter to a suspect and read the digit run
that follows it.  Outside ASCII the source differs: Python's
`str.isdigit`/`int` accept Unicode decimal digits (category Nd) and raise
`ValueError` on digit characters outside Nd (such as a superscript two),
while this model's `Char.isDigit`/`Char.toLower` are ASCII-only — so
statements quantifying over inputs are scoped to ASCII strings. -/
def parseArtifact (filename : String) : String × Nat :=
  let base := replacePng (filename.data.map Char.toLower)
  if startsWithR base && pyIsdigit (base.drop 1) then ("", 0)
  else if base.isEmpty || !(base.headD ' ' == 'q' || base.headD ' ' == 'c' || base.headD ' ' == 'g') then ("", 0)
  else
    let num_str := numStrLoop (base.drop 1)
    (suspectOfChar (base.headD ' '), if num_str.isEmpty then 0 else natOfDigits num_str)

/-- Claim-side parse, following the claim's words literally: the lowercased
name with the `".png"` *suffix* removed (one trailing occurrence only). -/
def stripPngEnd (l : List Char) : List Char :=
  if l.reverse.take 4 = ['g', 'n', 'p', '.'] then (l.reverse.drop 4).reverse else l

/-- The parse function the claim describes: `("", 0)` for `r`+digits,
empty, or a base not starting in q/c/g; otherwise the mapped suspect and
the value of the maximal digit run after the first letter.  Uses the
claim's "suffix removed" reading of the `.png` stripping. -/
def parseArtifactSpecClaim (filename : String) : String × Nat :=
  let base := stripPngEnd (filename.data.map Char.toLower)
  match base with
  | [] => ("", 0)
  | c :: rest =>
    if c = 'r' ∧ rest ≠ [] ∧ rest.all Char.isDigit then ("", 0)
    else if c = 'q' then ("queen", natOfDigits (rest.takeWhile Char.isDigit))
    else if c = 'c' then ("chef", natOfDigits (rest.takeWhile Char.isDigit))
    else if c = 'g' then ("goblin", natOfDigits (rest.takeWhile Char.isDigit))
    else ("", 0)

/-- The claim amended: identical wording except that *every* occurrence of
`".png"` is removed (Python `replace`), not only a suffix. -/
def parseArtifactSpecAmended (filename : String) : String × Nat :=
  let base := replacePng (filename.data.map Char.toLower)
  match base with
  | [] => ("", 0)
  | c :: rest =>
    if c = 'r' ∧ rest ≠ [] ∧ rest.all Char.isDigit then ("", 0)
    else if c = 'q' then ("queen", natOfDigits (rest.takeWhile Char.isDigit))
    else if c = 'c' then ("chef", natOfDigits (rest.takeWhile Char.isDigit))
    else if c = 'g' then ("goblin", natOfDigits (rest.takeWhile Char.isDigit))
    else ("", 0)

lemma numStrLoop_eq_takeWhile (l : List Char) :
    numStrLoop l = l.takeWhile Char.isDigit := by
  induction l with
  | nil => rfl
  | cons c rest ih =>
    by_cases h : c.isDigit <;> simp [numStrLoop, List.takeWhile, h, ih]

lemma pyIsdigit_iff (l : List Char) :
    pyIsdigit l = true ↔ (l ≠ [] ∧ l.all Char.isDigit = true) := by
  cases l <;> simp [pyIsdigit]

lemma ite_isEmpty_natOfDigits (l : List Char) :
    (if l.isEmpty then 0 else natOfDigits l) = natOfDigits l := by
  cases l <;> simp [natOfDigits]

lemma parseArtifact_eq_specAmended (s : String) :
    parseArtifact s = parseArtifactSpecAmended s := by
  unfold parseArtifact parseArtifactSpecAmended
  cases hb : replacePng (s.data.map Char.toLower) with
  | nil => simp [startsWithR, pyIsdigit]
  | cons c rest =>
    simp only [numStrLoop_eq_takeWhile, ite_isEmpty_natOfDigits]
    by_cases hr : c = 'r'
    · subst hr
      by_cases hd : pyIsdigit rest = true
      · simp [startsWithR, hd, (pyIsdigit_iff rest).mp hd]
      · have hnd : ¬(rest ≠ [] ∧ rest.all Char.isDigit = true) :=
          fun h => hd ((pyIsdigit_iff rest).mpr h)
        simp [startsWithR, hd, hnd, suspectOfChar]
    · have hsw : (c == 'r') = false := by simp [hr]
      by_cases hq : c = 'q'
      · subst hq; simp [startsWithR, suspectOfChar]
      · by_cases hc : c = 'c'
        · subst hc; simp [startsWithR, suspectOfChar]
        · by_cases hg : c = 'g'
          · subst hg; simp [startsWithR, suspectOfChar]
          · simp [startsWithR, hsw, hq, hc, hg, hr]

/-! ## Scene & evidence model (`REPLACEMENT_MAP`, `artifact_specs`,
`VanishingMemoriesGame._build_scenes`) -/

/-- `REPLACEMENT_MAP` (source lines 255–268):
`(scene_0based_index, original_filename) -> replacement_filename`. -/
def REPLACEMENT_MAP : List ((Nat × String) × String) :=
  [((1, "c10-1.png"), "r3.png"),
   ((1, "q5-2.png"), "r1.png"),
   ((2, "g5-1.png"), "r6.png"),
   ((2, "q5-1.png"), "r2.png"),
   ((3, "c5-1.png"), "r4.png"),
   ((3, "g5-2.png"), "r5.png"),
   ((3, "q10-2.png"), "r7.png"),
   ((4, "g10-1.png"), "r8.png"),
   ((4, "c5-2.png"), "r9.png"),
   ((4, "q10-1.png"), "r10.png"),
   ((5, "c10-2.png"), "r11.png"),
   ((5, "g10-2.png"), "r12.png")]

/-- Dict lookup `REPLACEMENT_MAP[(i, filename)]` as an option. -/
def replacementLookup (i : Nat) (fn : String) : Option String :=
  (REPLACEMENT_MAP.find? (fun e => e.1.1 == i && e.1.2 == fn)).map (·.2)

/-- `EVIDENCE_POINTS_REQUIRED` (source line 270). -/
def EVIDENCE_POINTS_REQUIRED : Nat := 12

/-- The artifact filenames of `artifact_specs` in `_build_scenes`
(source lines 888–895); positions, rotations, darken factors, scales and
offsets are draw-only and not part of the embedded core. -/
def artifact_specs : List (List String) :=
  [["q1-1.png", "c1-1.png", "g1-1.png"],
   ["q5-2.png", "c10-1.png", "g1-2.png"],
   ["q5-1.png", "c1-2.png", "g5-1.png"],
   ["q10-2.png", "c5-1.png", "g5-2.png"],
   ["q10-1.png", "c5-2.png", "g10-1.png"],
   ["q1-2.png", "c10-2.png", "g10-2.png"]]

/-- `tag_options` in `_build_scenes` (source lines 896–899). -/
def tag_options : List (List String) :=
  [["dna", "time", "access"], ["jealousy", "relationship", "motive"],
   ["workshop", "insider", "struggle"], ["digital", "lure", "premeditation"],
   ["poison", "escape", "alibi_break"], ["entry", "forensics", "tools"]]

/-- The scene labels of `_build_scenes` (source line 886). -/
def sceneLabels : List String :=
  ["09:12", "11:17", "12:03", "14:40", "18:22", "21:10"]

/-- The suspect ids, in the order of `_build_suspects` (source 968–973). -/
def culpritIds : List String := ["queen", "goblin", "chef"]

/-- The evidence-relevant fields of a `SceneArtifact`. -/
structure ArtifactData where
  spec_filename : String
  suspect_id : String
  points : Nat
  tags : List String
deriving DecidableEq

/-- The evidence-relevant fields of a `MemoryScene`. -/
structure SceneData where
  label : String
  artifacts : List ArtifactData
deriving DecidableEq

/-- The replacement decision and resulting artifact fields for one spec
entry of scene `i`, from `_build_scenes` (source lines 923–962); the
image loading/scaling is draw-only and assumed to succeed. -/
def buildArtifact (killer_id : String) (i : Nat) (orig_filename : String) : ArtifactData :=
  let sp := parseArtifact orig_filename
  let use_replacement :=
    killer_id ≠ sp.1 ∧ (sp.2 = 5 ∨ sp.2 = 10) ∧ (replacementLookup i orig_filename).isSome
  if use_replacement then
    { spec_filename := (replacementLookup i orig_filename).getD orig_filename,
      suspect_id := "", points := 0, tags := tag_options.getD i [] }
  else
    { spec_filename := orig_filename, suspect_id := sp.1, points := sp.2,
      tags := tag_options.getD i [] }

/-- `_build_scenes(killer_id)`, restricted to the evidence model. -/
def buildScenes (killer_id : String) : List SceneData :=
  (List.range 6).map fun i =>
    { label := sceneLabels.getD i "",
      artifacts := (artifact_specs.getD i []).map (buildArtifact killer_id i) }

/-- Points toward suspect `sid` carried by scene `i` as built for
`killer_id` (what a whole-scene snapshot of that scene records for `sid`). -/
def sceneSuspectPoints (killer_id : String) (i : Nat) (sid : String) : Nat :=
  (((buildScenes killer_id).getD i ⟨"", []⟩).artifacts.map
    (fun a => if a.suspect_id = sid then a.points else 0)).sum

/-- Summed points toward `sid` over all 6 scenes built for `killer_id`:
the maximum total any sequence of snapshots can reach for `sid`. -/
def totalSuspectPoints (killer_id sid : String) : Nat :=
  ((List.range 6).map (fun i => sceneSuspectPoints killer_id i sid)).sum

/-! ## Dialogue scripts (source lines 272–476) -/

/-- `OPENING_SCRIPT`: one list of text boxes per opening slide. -/
def OPENING_SCRIPT : List (List String) :=
  [["Narration\nFor three centuries, the Kingdom of Vaelor has known only one ruler.",
    "Narration\nKing Aldric the Everlasting.\nThe Immortal King.",
    "Narration\nIt is said no blade could wound him.\nNo poison could claim him.\nNo illness could weaken him.",
    "Narration\nTonight… that legend trembles."],
   ["Narration\nThe King was found before dusk…",
    "Narration\nUnresponsive.",
    "Queen Elira\n\"He was well this morning…\"",
    "Princess Lyra\n\"Father… please wake…\"",
    "Archmage Seredin\n\"Something binds him. Not death… not yet.\""],
   ["Narration\nYou are the High Inquisitor of Vaelor.",
    "Narration\nWhen treason threatens the crown, you uncover the truth.",
    "Knight-Captain Rowan\n\"The chamber was sealed. Only those within the castle walls had access.\"",
    "Narration\nThree stand within suspicion."],
   ["Archmage Seredin\n\"His life lingers… caught between breath and silence.\"",
    "Archmage Seredin\n\"If poison was used… its source may still echo within memory.\"",
    "Archmage Seredin\n\"Bring me proof of the guilty.\"",
    "Archmage Seredin\n\"Three fragments of truth.\"",
    "Archmage Seredin\n\"If the correct blood is taken… I may yet anchor him to this world.\""],
   ["Narration\nYou have limited time.",
    "Narration\nThe King\x27s memory fades.",
    "Narration\nEach chamber you enter holds fragments of truth… and falsehood.",
    "Narration\nChoose wisely."],
   ["Archmage Seredin\n\"Select three pieces of evidence.\"",
    "Archmage Seredin\n\"Accuse the traitor.\"",
    "Archmage Seredin\n\"Justice will be swift.\"",
    "Archmage Seredin\n\"The King must endure.\""],
   ["Narration\nLegends speak of immortality.",
    "Narration\nBut even legends rest upon fragile things.",
    "Narration\nAnd fragile things… crack.",
    "Narration\nThe investigation begins."]]

/-- Bad Ending I slide scripts. -/
def BAD_ENDING_RED_CRYSTAL : List String :=
  ["Narration\nThe ritual begins.",
   "Archmage Selwyn\n\"The fragments… they are incomplete.\"",
   "Narration\nThe Mnemosyne Prism trembles.\n\nIts light shifts — not green… but red.",
   "Archmage Selwyn\n\"There is not enough truth to bind him.\"",
   "Narration\nThe crystal screams.",
   "Narration\nAnd then it fractures."]

def BAD_ENDING_DEAD_KING : List String :=
  ["Narration\nKing Aldric exhales.\n\nAnd does not breathe again.",
   "Queen Elira\n\"No…\"",
   "Prince\n\"Father…\"",
   "Archmage Selwyn\n\"The thread has severed.\"",
   "Narration\nThe Immortal King lies still.",
   "Narration\nLegends do not resist silence."]

def BAD_ENDING_QUEEN_FREE : List String :=
  ["Narration\nIn mourning black, Queen Elira stood before the court.",
   "Narration\nNo accusation touched her.\nNo proof condemned her.",
   "Narration\nThe crown passed quietly.",
   "Narration\nBehind every grieving smile…\nambition endured.",
   "Narration\nVaelor did not fall that night.\n\nBut something within it did.",
   "Narration\nYou failed to gather sufficient evidence.\nThe ritual collapsed.\nThe traitor remains upon the throne.",
   "Narration\nBAD ENDING I — Truth Unclaimed"]

def BAD_ENDING_GOBLIN_FREE : List String :=
  ["Narration\nBrannic Ashhand kept his post.\n\nSweeping ash.\nStoking flame.",
   "Narration\nNo one questioned the hands that moved unseen through corridors.",
   "Narration\nNo one noticed the embers burning after midnight.",
   "Narration\nIn furnace light…\nhe smiled.",
   "Narration\nA kingdom may survive a dead king.\n\nIt may not survive a hidden spark.",
   "Narration\nYou failed to gather sufficient evidence.\nThe ritual collapsed.\nThe true traitor walks freely within Vaelor.",
   "Narration\nBAD ENDING I — Truth Unclaimed"]

def BAD_ENDING_CHEF_FREE : List String :=
  ["Narration\nMaster Edrin Vale continued to prepare the royal meals.",
   "Narration\nHe bowed when addressed.\nHe smiled when thanked.",
   "Narration\nIn the kitchens of Vaelor, flavors masked many things.",
   "Narration\nTrust… among them.",
   "Narration\nThe blade that cuts bread may cut deeper still.",
   "Narration\nYou failed to gather sufficient evidence.\nThe ritual collapsed.\nThe poisoner remains among the living.",
   "Narration\nBAD ENDING I — Truth Unclaimed"]

/-- Bad Ending II slide scripts. -/
def BAD_ENDING_II_RED_CRYSTAL : List String :=
  ["Narration\nThe blood touches light.",
   "Narration\nFor a moment… it glows green.",
   "Narration\nThen the color fractures.",
   "Mage\n\"No…\"",
   "Narration\nThe crystal burns red."]

def BAD_ENDING_II_DEAD_KING : List String :=
  ["Narration\nThe light falters.",
   "Mage\n\"It does not bind.\"",
   "Narration\nThe King exhales.",
   "Narration\nAnd does not breathe again.",
   "Narration\nThe Immortal King… lies still."]

def BAD_ENDING_II_QUEEN_FREE : List String :=
  ["Narration\nThe Queen wept the loudest.",
   "Narration\nGrief can resemble innocence.",
   "Narration\nBut power wears many masks.",
   "Narration\nWith the throne unguarded… she claims what was always within reach.",
   "Narration\nVaelor bends to a quieter tyranny.",
   "Narration\nBAD ENDING II — The False Judgement"]

def BAD_ENDING_II_CHEF_FREE : List String :=
  ["Narration\nThe kitchens never close.",
   "Narration\nAnd poison needs no throne.",
   "Narration\nWhile another suffered chains… the cook walked free.",
   "Narration\nThe city dines.",
   "Narration\nNot knowing what simmers beneath the lid.",
   "Narration\nBAD ENDING II — The False Judgement"]

def BAD_ENDING_II_GOBLIN_FREE : List String :=
  ["Narration\nSmall hands leave quiet traces.",
   "Narration\nYou never saw them.",
   "Narration\nWhile another bled in chains… the alchemist slipped into the dark.",
   "Narration\nThe walls of Vaelor crumble from within.",
   "Narration\nAnd something watches from the hills.",
   "Narration\nBAD ENDING II — The False Judgement"]

/-- Shared win path scripts (G1–G7). -/
def WIN_PATH_G1_GREEN_CRYSTAL : List String :=
  ["Narration\nThe fragments align.\n\nTruth, gathered.\n\nBlood, named.\n\nThe crystal answers."]

def WIN_PATH_G2_OPTIONS : List String :=
  ["Inquisitor\n\"These are the truths drawn from memory.\"",
   "Mage\n\"They resonate… strongly.\"",
   "Narration\nThe spell is ready.\n\nOnly the guilty blood remains."]

def WIN_PATH_G3_ESCORT : List String :=
  ["Knight\n\"She is the third.\"",
   "Narration\nThree stand beneath suspicion.\n\nOne truth binds them all."]

def WIN_PATH_G4_CULPRITS : List String :=
  ["Inquisitor\n\"I name the traitor.\""]

def WIN_PATH_G5_QUEEN_PLEADS : List String :=
  ["Queen Elira\n\"I did what was necessary… for the crown.\"",
   "Narration\nKnight restrains her.\n\nEven royalty bleeds."]

def WIN_PATH_G5_CHEF_PLEADS : List String :=
  ["Chef\n\"I served him my whole life…\"",
   "Narration\nKnight binds his wrists.\n\nLoyal hands can still falter."]

def WIN_PATH_G5_GOBLIN_PLEADS : List String :=
  ["Goblin\n\"No—no! I only tended fires!\"",
   "Narration\nKnight grips him firmly.\n\nAsh clings to more than stone."]

def WIN_PATH_G6_BLOOD_TAKEN : List String :=
  ["Narration\nProof must answer magic.\n\nThe cost is drawn."]

def WIN_PATH_G7_HANDS_TO_MAGE : List String :=
  ["Inquisitor\n\"Let truth decide.\"",
   "Mage\n\"So it shall.\""]

/-- Good Ending slide scripts. -/
def GOOD_ENDING_GREEN_CRYSTAL : List String :=
  ["Narration\nThe fragments align.\n\nTruth, gathered.\n\nBlood, named.\n\nThe crystal answers.",
   "Narration\nThe chamber floods with light.\n\nHope returns in a single breath."]

def GOOD_ENDING_DEAD_KING : List String :=
  ["Narration\nThe glow fades.\n\nThe crystal hum weakens.\n\nThe King exhales.\n\nAnd does not inhale again.",
   "Mage\n\"The spell… held him only a moment.\"",
   "Narration\nEven light must dim.",
   "Narration\nThe Immortal King is laid to rest.\n\nThe crystal that once promised eternity\nnow bears a fracture of its own.\n\nNot shattered.\n\nBut changed."]

def GOOD_ENDING_GE1_REJOICING : List String :=
  ["Daughter\n\"He will live…\"",
   "Son\n\"Father…\"",
   "Narration\nKnight lowers his blade.\n\nQueen and family weep in relief.",
   "Narration\nFor a moment… the kingdom believes."]

def GOOD_ENDING_GE2_CORONATION : List String :=
  ["Narration\nThe Queen places the crown upon him.\n\nBut this time, no one speaks of forever.",
   "Inquisitor\n\"Our new king does not claim eternity.\"",
   "Mage\n\"He claims tomorrow.\"",
   "Narration\nHe will not be called The Everlasting.\n\nHe will not be called The Immortal King.\n\nHe will be known as—\n\nThe Mortal King.",
   "Narration\nGOOD ENDING:\n\"The Crown of the Mortal King\"",
   "Narration\nJustice was served.\n\nThe guilty were bound.\n\nThe kingdom did not fall.\n\nAnd though legends fade…\n\nPeople endure."]

/-! ## Ending slides -/

/-- One entry of `self.ending_slides`: the dict
`{"image": …, "script": …, "show_memories": …, "accept_123": …,
"exit_prompt": …}` with its absent-key defaults. -/
structure EndSlide where
  image : String
  script : List String
  show_memories : Bool := false
  accept_123 : Bool := false
  exit_prompt : Bool := false
deriving DecidableEq

/-- The dict `{"goblin": "gob_be.png", "chef": "chef_be.png",
"queen": "queen_be.png"}[killer_id]`; the game only indexes it with one of
the three suspect ids. -/
def killerBeImage (killer_id : String) : String :=
  if killer_id = "goblin" then "gob_be.png"
  else if killer_id = "chef" then "chef_be.png"
  else "queen_be.png"

/-- The Bad Ending I culprit-free script chosen by `_start_ending`. -/
def badIFreeScript (killer_id : String) : List String :=
  if killer_id = "queen" then BAD_ENDING_QUEEN_FREE
  else if killer_id = "goblin" then BAD_ENDING_GOBLIN_FREE
  else BAD_ENDING_CHEF_FREE

/-- The Bad Ending II culprit-free script chosen by `_ending_append_outcome`. -/
def badIIFreeScript (killer_id : String) : List String :=
  if killer_id = "queen" then BAD_ENDING_II_QUEEN_FREE
  else if killer_id = "chef" then BAD_ENDING_II_CHEF_FREE
  else BAD_ENDING_II_GOBLIN_FREE

/-- `_ending_append_blood_and_continuation` (source 852–858): the three
slides appended when 1/2/3 is pressed on the `the_culprits` slide. -/
def bloodContinuationSlides (choice : Nat) : List EndSlide :=
  let blood_img :=
    if choice = 1 then "goblin_blood.png"
    else if choice = 2 then "chef_blood.png" else "queen_blood.png"
  let g5_script :=
    if choice = 1 then WIN_PATH_G5_GOBLIN_PLEADS
    else if choice = 2 then WIN_PATH_G5_CHEF_PLEADS else WIN_PATH_G5_QUEEN_PLEADS
  [{ image := blood_img, script := g5_script },
   { image := "blood_transfer.png", script := WIN_PATH_G6_BLOOD_TAKEN },
   { image := "mage_cooking.png", script := WIN_PATH_G7_HANDS_TO_MAGE }]

/-- `_ending_append_outcome` (source 860–878): the slides appended after
`mage_cooking.png` fades out. -/
def outcomeSlides (killer_id : String) (correct : Bool) : List EndSlide :=
  if correct then
    [{ image := "green_cryst.png", script := GOOD_ENDING_GREEN_CRYSTAL },
     { image := "dead_king.png", script := GOOD_ENDING_DEAD_KING },
     { image := "ge1.png", script := GOOD_ENDING_GE1_REJOICING },
     { image := "ge2.png", script := GOOD_ENDING_GE2_CORONATION, exit_prompt := true }]
  else
    [{ image := "red_cryst.png", script := BAD_ENDING_II_RED_CRYSTAL },
     { image := "dead_king.png", script := BAD_ENDING_II_DEAD_KING },
     { image := killerBeImage killer_id, script := badIIFreeScript killer_id,
       exit_prompt := true }]

/-! ## Snapshot ledger and game state -/

/-- `Snapshot` (source 497–505); the captured frame surface is draw-only
and not modelled. -/
structure Snapshot where
  tags : List String
  scene_label : String
  points_queen : Nat := 0
  points_chef : Nat := 0
  points_goblin : Nat := 0
  trigger_artifact_filename : Option String := none
deriving DecidableEq

/-- Keyboard keys the embedded handlers distinguish. -/
inductive Key where
  | kEscape | kRight | kSpace | kReturn | k1 | k2 | k3 | kS | kOther
deriving DecidableEq

/-- The logic-bearing fields of `VanishingMemoriesGame`; fonts, surfaces,
sounds, camera shake and parallax are draw-only and omitted. -/
structure Game where
  state : String
  running : Bool
  global_time : ℚ
  current_scene_index : Int
  snapshots : List Snapshot
  culprit_id : String
  scenes : List SceneData
  ominous_playing : Bool
  menu_time : ℚ
  scene_time : ℚ
  scene_fade_progress : List ℚ
  opening_slide_index : Nat
  opening_timer : ℚ
  opening_phase : String
  opening_text_index : Nat
  opening_char_index : Nat
  opening_typing_accumulator : ℚ
  snapshot_freeze_surface : Bool
  snapshot_effect_time : ℚ
  snapshot_flash_alpha : Int
  popup_artifact_filename : String
  popup_scene_index : Int
  popup_artifact_surface : Bool
  ending_slides : List EndSlide
  ending_index : Nat
  ending_phase : String
  ending_timer : ℚ
  ending_player_choice : Nat
  ending_show_memories : Bool
  ending_memory_popup_index : Int
  ending_text_index : Nat
  ending_char_index : Nat
  ending_typing_accumulator : ℚ
deriving DecidableEq

/-- Timing constants of the source (floats as rationals). -/
def GLOBAL_TIME_LIMIT : ℚ := 120
def MAX_SNAPSHOTS : Nat := 3
def OPENING_FADE_IN_DURATION : ℚ := 6 / 5
def OPENING_FADE_OUT_DURATION : ℚ := 9 / 10
def OPENING_TYPING_CPS : ℚ := 38
def ENDING_FADE_IN : ℚ := 6 / 5
def ENDING_FADE_OUT : ℚ := 9 / 10
def ENDING_TYPING_CPS : ℚ := 38
def SCENE_FADE_DURATION : ℚ := 42 / 3
/-- `len(self.opening_images)`: `_load_opening_images` always appends one
surface (image or placeholder) per `game_op1..7`. -/
def NUM_OPENING_IMAGES : Nat := 7

/-- The initial game state from `__init__` for a drawn culprit (the single
upfront random draw is the parameter). -/
def initGame (culprit_id : String) : Game where
  state := "opening"
  running := true
  global_time := GLOBAL_TIME_LIMIT
  current_scene_index := -1
  snapshots := []
  culprit_id := culprit_id
  scenes := buildScenes culprit_id
  ominous_playing := false
  menu_time := 0
  scene_time := 0
  scene_fade_progress := List.replicate 6 0
  opening_slide_index := 0
  opening_timer := 0
  opening_phase := "fade_in"
  opening_text_index := 0
  opening_char_index := 0
  opening_typing_accumulator := 0
  snapshot_freeze_surface := false
  snapshot_effect_time := 0
  snapshot_flash_alpha := 0
  popup_artifact_filename := ""
  popup_scene_index := -1
  popup_artifact_surface := false
  ending_slides := []
  ending_index := 0
  ending_phase := "fade_in"
  ending_timer := 0
  ending_player_choice := 0
  ending_show_memories := false
  ending_memory_popup_index := -1
  ending_text_index := 0
  ending_char_index := 0
  ending_typing_accumulator := 0

/-- Per-suspect evidence totals: `sum(s.points_queen for s in snapshots)`
and its siblings in `_start_ending` / `_compute_result`. -/
def totalQueen (snaps : List Snapshot) : Nat := (snaps.map (·.points_queen)).sum
def totalChef (snaps : List Snapshot) : Nat := (snaps.map (·.points_chef)).sum
def totalGoblin (snaps : List Snapshot) : Nat := (snaps.map (·.points_goblin)).sum

/-- `_start_ending` (source 805–850): compute totals, pick the loss or win
slide list, reset the dialogue player, enter the ending state. -/
def startEnding (g : Game) : Game :=
  let total_queen := totalQueen g.snapshots
  let total_chef := totalChef g.snapshots
  let total_goblin := totalGoblin g.snapshots
  let win := EVIDENCE_POINTS_REQUIRED ≤ total_queen ∨
    EVIDENCE_POINTS_REQUIRED ≤ total_chef ∨ EVIDENCE_POINTS_REQUIRED ≤ total_goblin
  let slides :=
    if ¬win then
      [{ image := "red_cryst.png", script := BAD_ENDING_RED_CRYSTAL },
       { image := "dead_king.png", script := BAD_ENDING_DEAD_KING },
       { image := killerBeImage g.culprit_id, script := badIFreeScript g.culprit_id,
         exit_prompt := true }]
    else
      [{ image := "green_cryst.png", script := WIN_PATH_G1_GREEN_CRYSTAL },
       { image := "the_options.png", script := WIN_PATH_G2_OPTIONS, show_memories := true },
       { image := "escort_in.png", script := WIN_PATH_G3_ESCORT, show_memories := true },
       { image := "the_culprits.png", script := WIN_PATH_G4_CULPRITS, show_memories := true,
         accept_123 := true }]
  { g with
    ending_player_choice := 0, ending_show_memories := false,
    ending_memory_popup_index := -1, ending_slides := slides, ending_index := 0,
    ending_phase := "fade_in", ending_timer := 0, ending_text_index := 0,
    ending_char_index := 0, ending_typing_accumulator := 0, state := "ending" }

/-- The `while self.…_typing_accumulator >= 1.0 and char_index < len(full_text)`
reveal loop shared by `_update_opening` and `_update_ending`. -/
def typingLoop (acc : ℚ) (ci total : Nat) : Nat × ℚ :=
  if h : 1 ≤ acc ∧ ci < total then typingLoop (acc - 1) (ci + 1) total
  else (ci, acc)
termination_by total - ci
decreasing_by simp_wf; omega

/-- `_update_opening` (source 1216–1243). -/
def updateOpening (g : Game) (dt : ℚ) : Game :=
  let g := { g with opening_timer := g.opening_timer + dt }
  if g.opening_phase = "fade_in" then
    if OPENING_FADE_IN_DURATION ≤ g.opening_timer then
      { g with
        opening_phase := "holding", opening_timer := 0, opening_text_index := 0,
        opening_char_index := 0, opening_typing_accumulator := 0 }
    else g
  else if g.opening_phase = "holding" then
    if g.opening_slide_index < OPENING_SCRIPT.length ∧
        g.opening_text_index < (OPENING_SCRIPT.getD g.opening_slide_index []).length then
      let full_text := (OPENING_SCRIPT.getD g.opening_slide_index []).getD g.opening_text_index ""
      let acc := g.opening_typing_accumulator + dt * OPENING_TYPING_CPS
      let p := typingLoop acc g.opening_char_index full_text.length
      let acc2 := if full_text.length ≤ p.1 then 0 else p.2
      { g with opening_char_index := p.1, opening_typing_accumulator := acc2 }
    else g
  else if g.opening_phase = "fade_out" then
    if OPENING_FADE_OUT_DURATION ≤ g.opening_timer then
      let g := { g with opening_slide_index := g.opening_slide_index + 1, opening_timer := 0 }
      if NUM_OPENING_IMAGES ≤ g.opening_slide_index then
        { g with state := "menu", opening_slide_index := 0 }
      else { g with opening_phase := "fade_in" }
    else g
  else g

/-- Fade-in completion of `_update_ending` (source 1248–1254). -/
def endingFadeInDone (g : Game) : Game :=
  { g with
    ending_phase := "holding", ending_timer := 0, ending_text_index := 0,
    ending_char_index := 0, ending_typing_accumulator := 0 }

/-- Holding-phase typing of `_update_ending` (source 1255–1265). -/
def endingHoldingTyping (g : Game) (dt : ℚ) : Game :=
  let slide := g.ending_slides.getD g.ending_index { image := "", script := [] }
  let script := slide.script
  if ¬script.isEmpty ∧ g.ending_text_index < script.length then
    let full_text := script.getD g.ending_text_index ""
    let acc := g.ending_typing_accumulator + dt * ENDING_TYPING_CPS
    let p := typingLoop acc g.ending_char_index full_text.length
    let acc2 := if full_text.length ≤ p.1 then 0 else p.2
    { g with ending_char_index := p.1, ending_typing_accumulator := acc2 }
  else g

/-- The `correct` flag of `_update_ending` (source 1271–1275). -/
def endingChoiceCorrect (g : Game) : Bool :=
  (g.ending_player_choice == 1 && g.culprit_id == "goblin")
  || (g.ending_player_choice == 2 && g.culprit_id == "chef")
  || (g.ending_player_choice == 3 && g.culprit_id == "queen")

/-- Fade-out completion of `_update_ending` (source 1266–1285): advance the
slide index, append the outcome after `mage_cooking.png`, reset the script
state, re-enter fade-in (or hold on a run-off index). -/
def endingFadeOutDone (g : Game) : Game :=
  let prev_index := g.ending_index
  let g := { g with ending_index := g.ending_index + 1 }
  let prev_slide : EndSlide := g.ending_slides.getD prev_index { image := "", script := [] }
  let g : Game :=
    if prev_index < g.ending_slides.length ∧ prev_slide.image = "mage_cooking.png" then
      { g with ending_slides := g.ending_slides ++ outcomeSlides g.culprit_id (endingChoiceCorrect g) }
    else g
  let g : Game := { g with
                    ending_timer := 0, ending_text_index := 0, ending_char_index := 0,
                    ending_typing_accumulator := 0 }
  if g.ending_index < g.ending_slides.length then { g with ending_phase := "fade_in" }
  else { g with ending_phase := "holding" }

/-- `_update_ending` (source 1245–1285): fades, typing, slide advance, and
the outcome append after the `mage_cooking.png` fade-out. -/
def updateEnding (g : Game) (dt : ℚ) : Game :=
  let g := { g with ending_timer := g.ending_timer + dt }
  if g.ending_phase = "fade_in" then
    if ENDING_FADE_IN ≤ g.ending_timer then endingFadeInDone g else g
  else if g.ending_phase = "holding" then endingHoldingTyping g dt
  else if g.ending_phase = "fade_out" then
    if ENDING_FADE_OUT ≤ g.ending_timer then endingFadeOutDone g else g
  else g

/-- `_update_global_timer` (source 1287–1298). -/
def updateGlobalTimer (g : Game) (dt : ℚ) : Game :=
  let g :=
    if 0 < g.global_time then
      let g := { g with global_time := max 0 (g.global_time - dt) }
      if g.global_time = 0 then
        let g := startEnding g
        { g with current_scene_index := -1, ominous_playing := false }
      else g
    else g
  if MAX_SNAPSHOTS ≤ g.snapshots.length ∧ g.state = "menu" then startEnding g else g

/-- `_update_scene` (source 1478–1508): scene clock, monotone fade
progress, and the low-time ominous loop; the random camera shake and the
parallax offsets are draw-only and omitted. -/
def updateScene (g : Game) (dt : ℚ) : Game :=
  if g.current_scene_index < 0 then g
  else
    let g := { g with scene_time := g.scene_time + dt }
    let idx := g.current_scene_index.toNat
    let g :=
      if idx < g.scene_fade_progress.length then
        { g with
          scene_fade_progress := g.scene_fade_progress.set idx
            (min 1 (g.scene_fade_progress.getD idx 0 + dt / SCENE_FADE_DURATION)) }
      else g
    if g.global_time < 25 ∧ 0 < g.global_time then { g with ominous_playing := true }
    else { g with ominous_playing := false }

/-- `_update_snapshot_effect` (source 1537–1543). -/
def updateSnapshotEffect (g : Game) (dt : ℚ) : Game :=
  let t := g.snapshot_effect_time + dt
  let g := { g with
             snapshot_effect_time := t,
             snapshot_flash_alpha := max 0 (255 - Int.floor (t * 800)) }
  if 2 / 5 < t then
    { g with state := "menu", current_scene_index := -1, snapshot_freeze_surface := false }
  else g

/-- The per-state update dispatch of one tick of `run` (source 1166–1179). -/
def tickUpdate (g : Game) (dt : ℚ) : Game :=
  if g.state = "opening" then updateOpening g dt
  else if g.state = "menu" then
    let g := updateGlobalTimer g dt
    { g with menu_time := g.menu_time + dt }
  else if g.state = "snapshot_effect" then updateSnapshotEffect g dt
  else if g.state = "scene" then updateScene (updateGlobalTimer g dt) dt
  else if g.state = "artifact_popup" then updateGlobalTimer g dt
  else if g.state = "ending" then updateEnding g dt
  else g

/-! ## Snapshot capture, popup, undo -/

/-- `_take_snapshot` (source 1510–1535): keyboard whole-scene capture. -/
def takeSnapshot (g : Game) : Game :=
  if MAX_SNAPSHOTS ≤ g.snapshots.length then g
  else
    let g := { g with
               snapshot_freeze_surface := true, snapshot_effect_time := 0,
               snapshot_flash_alpha := 255 }
    let scene := g.scenes.getD g.current_scene_index.toNat ⟨"", []⟩
    let captured_tags := (scene.artifacts.map (·.tags)).flatten
    let p_queen := (scene.artifacts.map (fun a => if a.suspect_id = "queen" then a.points else 0)).sum
    let p_chef := (scene.artifacts.map (fun a => if a.suspect_id = "chef" then a.points else 0)).sum
    let p_goblin := (scene.artifacts.map (fun a => if a.suspect_id = "goblin" then a.points else 0)).sum
    { g with
      snapshots := g.snapshots ++
        [{ tags := captured_tags, scene_label := scene.label, points_queen := p_queen,
           points_chef := p_chef, points_goblin := p_goblin,
           trigger_artifact_filename := none }],
      state := "snapshot_effect" }

/-- `_take_snapshot_from_popup` (source 1445–1476): single-artifact
capture; only the clicked artifact's points count. -/
def takeSnapshotFromPopup (g : Game) : Game :=
  if MAX_SNAPSHOTS ≤ g.snapshots.length then g
  else if g.popup_scene_index < 0 then g
  else
    let g := { g with
               snapshot_freeze_surface := true, snapshot_effect_time := 0,
               snapshot_flash_alpha := 255 }
    let scene := g.scenes.getD g.popup_scene_index.toNat ⟨"", []⟩
    let art := scene.artifacts.find? (fun a => a.spec_filename == g.popup_artifact_filename)
    let p_queen := match art with
      | some a => if a.suspect_id = "queen" then a.points else 0
      | none => 0
    let p_chef := match art with
      | some a => if a.suspect_id = "chef" then a.points else 0
      | none => 0
    let p_goblin := match art with
      | some a => if a.suspect_id = "goblin" then a.points else 0
      | none => 0
    let captured_tags := match art with
      | some a => a.tags
      | none => []
    { g with
      snapshots := g.snapshots ++
        [{ tags := captured_tags, scene_label := scene.label, points_queen := p_queen,
           points_chef := p_chef, points_goblin := p_goblin,
           trigger_artifact_filename := some g.popup_artifact_filename }],
      state := "snapshot_effect" }

/-- `_close_artifact_popup` (source 1368–1373). -/
def closeArtifactPopup (g : Game) : Game :=
  { g with
    state := "scene", popup_artifact_filename := "", popup_scene_index := -1,
    popup_artifact_surface := false }

/-- The `can_uncrystallize_here` guard of `_handle_artifact_popup_click`
(source 1412–1419): some snapshot of the popup's scene was triggered by
this artifact or by the keyboard (trigger `None`). -/
def canUncrystallizeHere (g : Game) : Bool :=
  if g.popup_scene_index < 0 then false
  else
    let scene := g.scenes.getD g.popup_scene_index.toNat ⟨"", []⟩
    g.snapshots.any fun s =>
      s.scene_label == scene.label &&
        (s.trigger_artifact_filename == none ||
         s.trigger_artifact_filename == some g.popup_artifact_filename)

/-- Drop the first snapshot with the given scene label (walking the
reversed ledger, this is the source's backwards pop loop). -/
def removeFirstWithLabel (label : String) : List Snapshot → List Snapshot
  | [] => []
  | s :: rest =>
    if s.scene_label == label then rest else s :: removeFirstWithLabel label rest

/-- The `for i in range(len(self.snapshots) - 1, -1, -1)` pop loop of
`_handle_artifact_popup_click` (source 1433–1436): remove the most
recently appended snapshot whose scene label matches. -/
def popMostRecentWithLabel (label : String) (snaps : List Snapshot) : List Snapshot :=
  (removeFirstWithLabel label snaps.reverse).reverse

/-- The uncrystallize branch of `_handle_artifact_popup_click`
(source 1432–1437), the button hit-test abstracted as the action being
invoked. -/
def uncrystallizeClick (g : Game) : Game :=
  if canUncrystallizeHere g then
    let scene := g.scenes.getD g.popup_scene_index.toNat ⟨"", []⟩
    closeArtifactPopup { g with snapshots := popMostRecentWithLabel scene.label g.snapshots }
  else g

/-- The crystallize branch of `_handle_artifact_popup_click`
(source 1425–1431): capture only below the cap, then clear the popup
context (the state is set by `_take_snapshot_from_popup`). -/
def crystallizeClick (g : Game) : Game :=
  if g.snapshots.length < MAX_SNAPSHOTS then
    let g := takeSnapshotFromPopup g
    { g with
      popup_artifact_filename := "", popup_scene_index := -1,
      popup_artifact_surface := false }
  else g

/-! ## Keydown dispatch of `run` (source 1041–1134) -/

/-- The choice branch for key 1/2/3 on an `accept_123` slide
(source 1062–1089). -/
def endingChoiceKey (g : Game) (c : Nat) : Game :=
  { g with
    ending_player_choice := c,
    ending_slides := g.ending_slides ++ bloodContinuationSlides c,
    ending_index := g.ending_index + 1, ending_phase := "fade_in", ending_timer := 0,
    ending_text_index := 0, ending_char_index := 0, ending_typing_accumulator := 0 }

/-- Keydown handling while `state == "ending"` (source 1055–1110). -/
def endingKeydown (g : Game) (key : Key) : Game :=
  if g.ending_index < g.ending_slides.length then
    let slide := g.ending_slides.getD g.ending_index { image := "", script := [] }
    let script := slide.script
    if slide.exit_prompt ∧ (script.isEmpty ∨ script.length ≤ g.ending_text_index) then
      { g with running := false }
    else if slide.accept_123 then
      if key = Key.k1 then endingChoiceKey g 1
      else if key = Key.k2 then endingChoiceKey g 2
      else if key = Key.k3 then endingChoiceKey g 3
      else g
    else if g.ending_phase = "holding" ∧ key = Key.kRight then
      if ¬script.isEmpty ∧ g.ending_text_index < script.length then
        let full_text := script.getD g.ending_text_index ""
        let g :=
          if g.ending_char_index < full_text.length then
            { g with ending_char_index := full_text.length }
          else g
        if full_text.length ≤ g.ending_char_index then
          if g.ending_text_index + 1 < script.length then
            { g with
              ending_text_index := g.ending_text_index + 1, ending_char_index := 0,
              ending_typing_accumulator := 0 }
          else if slide.exit_prompt then
            { g with ending_text_index := script.length }
          else { g with ending_phase := "fade_out", ending_timer := 0 }
        else g
      else { g with ending_phase := "fade_out", ending_timer := 0 }
    else g
  else g

/-- The `K_RIGHT` handler while `state == "opening"` (source 1111–1130). -/
def openingRightPress (g : Game) : Game :=
  if g.opening_phase = "holding" then
    let script := OPENING_SCRIPT.getD g.opening_slide_index []
    if g.opening_text_index < script.length then
      let full_text := script.getD g.opening_text_index ""
      let g :=
        if g.opening_char_index < full_text.length then
          { g with opening_char_index := full_text.length }
        else g
      if full_text.length ≤ g.opening_char_index then
        if g.opening_text_index + 1 < script.length then
          { g with
            opening_text_index := g.opening_text_index + 1, opening_char_index := 0,
            opening_typing_accumulator := 0 }
        else { g with opening_phase := "fade_out", opening_timer := 0 }
      else g
    else { g with opening_phase := "fade_out", opening_timer := 0 }
  else g

/-- The whole `KEYDOWN` dispatch of `run` (source 1041–1134), with the
source's branch order: the leading `if event.key == K_ESCAPE` consumes
every Escape press, so the trailing `artifact_popup and K_ESCAPE` branch
is unreachable (kept here exactly as in the source). -/
def handleKeydown (g : Game) (key : Key) : Game :=
  if key = Key.kEscape then
    if g.state = "opening" then { g with state := "menu" }
    else if g.state = "scene" then
      { g with state := "menu", current_scene_index := -1, ominous_playing := false }
    else if g.state = "menu" then { g with running := false }
    else g
  else if g.state = "ending" then endingKeydown g key
  else if g.state = "opening" ∧ key = Key.kRight then openingRightPress g
  else if g.state = "scene" ∧ key = Key.kS then takeSnapshot g
  else if g.state = "artifact_popup" ∧ key = Key.kEscape then closeArtifactPopup g
  else g

/-! ## Sample game states used for concrete instances -/

/-- A small concrete game state (no scenes, empty ledger) used as a base
for concrete instances; field values as set by `__init__` except where a
scenario overrides them. -/
def sampleGame : Game where
  state := "menu"
  running := true
  global_time := GLOBAL_TIME_LIMIT
  current_scene_index := -1
  snapshots := []
  culprit_id := "chef"
  scenes := []
  ominous_playing := false
  menu_time := 0
  scene_time := 0
  scene_fade_progress := List.replicate 6 0
  opening_slide_index := 0
  opening_timer := 0
  opening_phase := "fade_in"
  opening_text_index := 0
  opening_char_index := 0
  opening_typing_accumulator := 0
  snapshot_freeze_surface := false
  snapshot_effect_time := 0
  snapshot_flash_alpha := 0
  popup_artifact_filename := ""
  popup_scene_index := -1
  popup_artifact_surface := false
  ending_slides := []
  ending_index := 0
  ending_phase := "fade_in"
  ending_timer := 0
  ending_player_choice := 0
  ending_show_memories := false
  ending_memory_popup_index := -1
  ending_text_index := 0
  ending_char_index := 0
  ending_typing_accumulator := 0

/-- Ending state poised on the `mage_cooking.png` fade-out with choice 2
(chef) against culprit chef. -/
def c3SampleEnding : Game :=
  { sampleGame with
    state := "ending", ending_phase := "fade_out",
    ending_slides := [{ image := "mage_cooking.png", script := WIN_PATH_G7_HANDS_TO_MAGE }],
    ending_index := 0, ending_player_choice := 2 }

/-- Ledger entries for the undo scenarios. -/
def snapA : Snapshot :=
  { tags := [], scene_label := "scene1", trigger_artifact_filename := some "artifactX.png" }
def snapB : Snapshot :=
  { tags := [], scene_label := "scene1", trigger_artifact_filename := some "artifactY.png" }
def snapC : Snapshot :=
  { tags := [], scene_label := "scene2", trigger_artifact_filename := none }

/-- Popup open on `artifactX.png` of `scene1` with ledger `[A, B]`:
`A` was triggered by `artifactX.png`, `B` (more recent) by
`artifactY.png`. -/
def c5CounterGame : Game :=
  { sampleGame with
    state := "artifact_popup", scenes := [{ label := "scene1", artifacts := [] }],
    popup_scene_index := 0, popup_artifact_filename := "artifactX.png",
    popup_artifact_surface := true, snapshots := [snapA, snapB] }

/-- The spec's own undo example: ledger `[A(scene1, artifactX),
B(scene1, artifactY), C(scene2, none)]`, popup open on `artifactY.png` of
`scene1`. -/
def c5ExampleGame : Game :=
  { sampleGame with
    state := "artifact_popup", scenes := [{ label := "scene1", artifacts := [] }],
    popup_scene_index := 0, popup_artifact_filename := "artifactY.png",
    popup_artifact_surface := true, snapshots := [snapA, snapB, snapC] }

/-- A game at the 3-snapshot cap, inside a scene and with a popup open. -/
def c6CapGame : Game :=
  { sampleGame with
    state := "scene", current_scene_index := 0,
    scenes := [{ label := "scene1", artifacts := [] }],
    popup_scene_index := 0, popup_artifact_filename := "artifactX.png",
    snapshots := [snapA, snapB, snapC] }

/-- Opening dialogue in holding phase on the first box of the first slide,
nothing revealed yet. -/
def c7OpeningGame : Game :=
  { sampleGame with
    state := "opening", opening_phase := "holding", opening_slide_index := 0,
    opening_text_index := 0, opening_char_index := 0 }

/-- Ending dialogue in holding phase on the first box of a plain slide,
nothing revealed yet. -/
def c7EndingGame : Game :=
  { sampleGame with
    state := "ending", ending_phase := "holding",
    ending_slides := [{ image := "red_cryst.png", script := BAD_ENDING_II_RED_CRYSTAL }],
    ending_index := 0, ending_text_index := 0, ending_char_index := 0 }

/-- An open artifact popup. -/
def c8PopupGame : Game :=
  { sampleGame with
    state := "artifact_popup", scenes := [{ label := "scene1", artifacts := [] }],
    current_scene_index := 0, popup_scene_index := 0,
    popup_artifact_filename := "q5-2.png", popup_artifact_surface := true }

/-- Mid-run snapshot-effect state with time still on the clock. -/
def c9EffectGame : Game :=
  { sampleGame with
    state := "snapshot_effect", global_time := 100, snapshot_effect_time := 0,
    snapshot_freeze_surface := true }

/-- A menu state with time on the clock, used to instantiate the timer
contract. -/
def c9MenuGame : Game :=
  { sampleGame with state := "menu", global_time := 100 }

/-! ## Helper lemmas -/

lemma startEnding_global_time (g : Game) : (startEnding g).global_time = g.global_time := rfl

lemma startEnding_state (g : Game) : (startEnding g).state = "ending" := rfl

lemma startEnding_snapshots (g : Game) : (startEnding g).snapshots = g.snapshots := rfl

lemma endingChoiceCorrect_true_iff (g : Game) :
    endingChoiceCorrect g = true ↔
      ((g.ending_player_choice = 1 ∧ g.culprit_id = "goblin")
       ∨ (g.ending_player_choice = 2 ∧ g.culprit_id = "chef")
       ∨ (g.ending_player_choice = 3 ∧ g.culprit_id = "queen")) := by
  simp [endingChoiceCorrect, Bool.or_eq_true, Bool.and_eq_true, beq_iff_eq, or_assoc]

lemma endingFadeOutDone_slides_mage (g : Game)
    (hidx : g.ending_index < g.ending_slides.length)
    (himg : (g.ending_slides.getD g.ending_index { image := "", script := [] }).image
      = "mage_cooking.png") :
    (endingFadeOutDone g).ending_slides =
      g.ending_slides ++ outcomeSlides g.culprit_id (endingChoiceCorrect g) := by
  unfold endingFadeOutDone
  dsimp only
  rw [if_pos (And.intro hidx himg)]
  dsimp only
  rw [apply_ite Game.ending_slides]
  dsimp only
  rw [ite_self]
  rfl

lemma updateEnding_fadeOut_done (g : Game) (dt : ℚ)
    (hph : g.ending_phase = "fade_out")
    (ht : ENDING_FADE_OUT ≤ g.ending_timer + dt) :
    updateEnding g dt = endingFadeOutDone { g with ending_timer := g.ending_timer + dt } := by
  unfold updateEnding
  dsimp only
  rw [hph]
  rw [if_neg (by decide), if_neg (by decide), if_pos rfl, if_pos ht]

lemma removeFirstWithLabel_split (label : String) (l : List Snapshot)
    (h : ∃ s ∈ l, s.scene_label = label) :
    ∃ l₁ s l₂, l = l₁ ++ s :: l₂ ∧ s.scene_label = label ∧
      (∀ t ∈ l₁, t.scene_label ≠ label) ∧
      removeFirstWithLabel label l = l₁ ++ l₂ := by
  induction l with
  | nil => simp at h
  | cons a rest ih =>
    by_cases ha : a.scene_label = label
    · exact ⟨[], a, rest, by simp, ha, by simp, by simp [removeFirstWithLabel, ha]⟩
    · have hrest : ∃ s ∈ rest, s.scene_label = label := by
        obtain ⟨s, hs, hsl⟩ := h
        rcases List.mem_cons.mp hs with hsa | hsr
        · exact absurd (hsa ▸ hsl) ha
        · exact ⟨s, hsr, hsl⟩
      obtain ⟨l₁, s, l₂, he, hl, hn, hr⟩ := ih hrest
      refine ⟨a :: l₁, s, l₂, by simp [he], hl, ?_, ?_⟩
      · intro t ht
        rcases List.mem_cons.mp ht with hta | htl
        · exact hta ▸ ha
        · exact hn t htl
      · simp [removeFirstWithLabel, ha, hr]

lemma popMostRecentWithLabel_split (label : String) (l : List Snapshot)
    (h : ∃ s ∈ l, s.scene_label = label) :
    ∃ l₁ s l₂, l = l₁ ++ s :: l₂ ∧ s.scene_label = label ∧
      (∀ t ∈ l₂, t.scene_label ≠ label) ∧
      popMostRecentWithLabel label l = l₁ ++ l₂ := by
  have hrev : ∃ s ∈ l.reverse, s.scene_label = label := by
    obtain ⟨s, hs, hsl⟩ := h
    exact ⟨s, List.mem_reverse.mpr hs, hsl⟩
  obtain ⟨r₁, s, r₂, he, hl, hn, hr⟩ := removeFirstWithLabel_split label l.reverse hrev
  refine ⟨r₂.reverse, s, r₁.reverse, ?_, hl, ?_, ?_⟩
  · have := congrArg List.reverse he
    simpa [List.reverse_append] using this
  · intro t ht
    exact hn t (List.mem_reverse.mp ht)
  · unfold popMostRecentWithLabel
    rw [hr]
    simp [List.reverse_append]

lemma handleKeydown_opening_right (g : Game) (hs : g.state = "opening") :
    handleKeydown g Key.kRight = openingRightPress g := by
  unfold handleKeydown
  have h1 : ¬ ((Key.kRight : Key) = Key.kEscape) := by decide
  have h2 : ¬ (g.state = "ending") := by rw [hs]; decide
  rw [if_neg h1, if_neg h2, if_pos (And.intro hs rfl)]

lemma handleKeydown_ending (g : Game) (hs : g.state = "ending") (key : Key)
    (hk : ¬ key = Key.kEscape) :
    handleKeydown g key = endingKeydown g key := by
  unfold handleKeydown
  rw [if_neg hk, if_pos hs]

lemma openingRightPress_advance (g : Game) (hp : g.opening_phase = "holding")
    (ht : g.opening_text_index < (OPENING_SCRIPT.getD g.opening_slide_index []).length)
    (ha : g.opening_text_index + 1 < (OPENING_SCRIPT.getD g.opening_slide_index []).length) :
    openingRightPress g =
      { g with opening_text_index := g.opening_text_index + 1, opening_char_index := 0,
               opening_typing_accumulator := 0 } := by
  unfold openingRightPress
  rw [if_pos hp, if_pos ht]
  dsimp only
  by_cases hc : g.opening_char_index <
      ((OPENING_SCRIPT.getD g.opening_slide_index []).getD g.opening_text_index "").length
  · rw [if_pos hc]
    dsimp only
    rw [if_pos (le_refl _), if_pos ha]
  · rw [if_neg hc, if_pos (by omega), if_pos ha]

lemma openingRightPress_lastBox (g : Game) (hp : g.opening_phase = "holding")
    (ht : g.opening_text_index < (OPENING_SCRIPT.getD g.opening_slide_index []).length)
    (ha : ¬ g.opening_text_index + 1 < (OPENING_SCRIPT.getD g.opening_slide_index []).length) :
    (openingRightPress g).opening_phase = "fade_out" ∧
    (openingRightPress g).opening_timer = 0 := by
  unfold openingRightPress
  rw [if_pos hp, if_pos ht]
  dsimp only
  by_cases hc : g.opening_char_index <
      ((OPENING_SCRIPT.getD g.opening_slide_index []).getD g.opening_text_index "").length
  · rw [if_pos hc]
    dsimp only
    rw [if_pos (le_refl _), if_neg ha]
    exact ⟨rfl, rfl⟩
  · rw [if_neg hc, if_pos (by omega), if_neg ha]
    exact ⟨rfl, rfl⟩

lemma endingKeydown_right_advance (g : Game) (hp : g.ending_phase = "holding")
    (hidx : g.ending_index < g.ending_slides.length)
    (hexit : (g.ending_slides.getD g.ending_index { image := "", script := [] }).exit_prompt
      = false)
    (haccept : (g.ending_slides.getD g.ending_index { image := "", script := [] }).accept_123
      = false)
    (ht : g.ending_text_index <
      (g.ending_slides.getD g.ending_index { image := "", script := [] }).script.length)
    (ha : g.ending_text_index + 1 <
      (g.ending_slides.getD g.ending_index { image := "", script := [] }).script.length) :
    endingKeydown g Key.kRight =
      { g with ending_text_index := g.ending_text_index + 1, ending_char_index := 0,
               ending_typing_accumulator := 0 } := by
  have h1 : ¬ ((g.ending_slides.getD g.ending_index { image := "", script := [] }).exit_prompt
      = true ∧
      ((g.ending_slides.getD g.ending_index { image := "", script := [] }).script.isEmpty
        = true ∨
       (g.ending_slides.getD g.ending_index { image := "", script := [] }).script.length ≤
         g.ending_text_index)) := by
    intro hcon
    rw [hexit] at hcon
    exact Bool.false_ne_true hcon.1
  have h2 : ¬ ((g.ending_slides.getD g.ending_index { image := "", script := [] }).accept_123
      = true) := by
    rw [haccept]; exact Bool.false_ne_true
  have hscript_ne : ¬ ((g.ending_slides.getD g.ending_index
      { image := "", script := [] }).script.isEmpty = true) := by
    intro hemp
    rw [List.isEmpty_iff] at hemp
    rw [hemp] at ht
    simp at ht
  unfold endingKeydown
  rw [if_pos hidx]
  dsimp only
  rw [if_neg h1, if_neg h2, if_pos (And.intro hp rfl), if_pos (And.intro hscript_ne ht)]
  by_cases hc : g.ending_char_index <
      ((g.ending_slides.getD g.ending_index { image := "", script := [] }).script.getD
        g.ending_text_index "").length
  · rw [if_pos hc]
    dsimp only
    rw [if_pos (le_refl _), if_pos ha]
  · rw [if_neg hc, if_pos (by omega), if_pos ha]

lemma endingKeydown_right_lastBox (g : Game) (hp : g.ending_phase = "holding")
    (hidx : g.ending_index < g.ending_slides.length)
    (hexit : (g.ending_slides.getD g.ending_index { image := "", script := [] }).exit_prompt
      = false)
    (haccept : (g.ending_slides.getD g.ending_index { image := "", script := [] }).accept_123
      = false)
    (ht : g.ending_text_index <
      (g.ending_slides.getD g.ending_index { image := "", script := [] }).script.length)
    (ha : ¬ g.ending_text_index + 1 <
      (g.ending_slides.getD g.ending_index { image := "", script := [] }).script.length) :
    (endingKeydown g Key.kRight).ending_phase = "fade_out" ∧
    (endingKeydown g Key.kRight).ending_timer = 0 := by
  have h1 : ¬ ((g.ending_slides.getD g.ending_index { image := "", script := [] }).exit_prompt
      = true ∧
      ((g.ending_slides.getD g.ending_index { image := "", script := [] }).script.isEmpty
        = true ∨
       (g.ending_slides.getD g.ending_index { image := "", script := [] }).script.length ≤
         g.ending_text_index)) := by
    intro hcon
    rw [hexit] at hcon
    exact Bool.false_ne_true hcon.1
  have h2 : ¬ ((g.ending_slides.getD g.ending_index { image := "", script := [] }).accept_123
      = true) := by
    rw [haccept]; exact Bool.false_ne_true
  have hscript_ne : ¬ ((g.ending_slides.getD g.ending_index
      { image := "", script := [] }).script.isEmpty = true) := by
    intro hemp
    rw [List.isEmpty_iff] at hemp
    rw [hemp] at ht
    simp at ht
  have hexit' : ¬ ((g.ending_slides.getD g.ending_index
      { image := "", script := [] }).exit_prompt = true) := by
    rw [hexit]; exact Bool.false_ne_true
  unfold endingKeydown
  rw [if_pos hidx]
  dsimp only
  rw [if_neg h1, if_neg h2, if_pos (And.intro hp rfl), if_pos (And.intro hscript_ne ht)]
  by_cases hc : g.ending_char_index <
      ((g.ending_slides.getD g.ending_index { image := "", script := [] }).script.getD
        g.ending_text_index "").length
  · rw [if_pos hc]
    dsimp only
    rw [if_pos (le_refl _), if_neg ha, if_neg hexit']
    exact ⟨rfl, rfl⟩
  · rw [if_neg hc, if_pos (by omega), if_neg ha, if_neg hexit']
    exact ⟨rfl, rfl⟩

lemma updateSnapshotEffect_global_time (g : Game) (dt : ℚ) :
    (updateSnapshotEffect g dt).global_time = g.global_time := by
  unfold updateSnapshotEffect
  dsimp only
  simp only [apply_ite Game.global_time, ite_self]

lemma tickUpdate_snapshot_effect (g : Game) (dt : ℚ) (hs : g.state = "snapshot_effect") :
    tickUpdate g dt = updateSnapshotEffect g dt := by
  unfold tickUpdate
  rw [hs]
  rw [if_neg (by decide), if_neg (by decide), if_pos rfl]

lemma updateGlobalTimer_global_time (g : Game) (dt : ℚ) :
    (updateGlobalTimer g dt).global_time =
      if 0 < g.global_time then max 0 (g.global_time - dt) else g.global_time := by
  unfold updateGlobalTimer
  dsimp only
  by_cases h0 : 0 < g.global_time
  · rw [if_pos h0, if_pos h0]
    simp only [apply_ite Game.global_time, startEnding_global_time, ite_self]
  · rw [if_neg h0, if_neg h0]
    simp only [apply_ite Game.global_time, startEnding_global_time, ite_self]

lemma updateGlobalTimer_state_zero (g : Game) (dt : ℚ)
    (h0 : 0 < g.global_time) (hz : g.global_time - dt ≤ 0) :
    (updateGlobalTimer g dt).state = "ending" := by
  unfold updateGlobalTimer
  dsimp only
  rw [if_pos h0]
  have hmz : max 0 (g.global_time - dt) = 0 := max_eq_left hz
  rw [if_pos (show _ = (0 : ℚ) from hmz)]
  simp only [apply_ite Game.state, startEnding_state, ite_self]

lemma updateGlobalTimer_state_cap (g : Game) (dt : ℚ)
    (hs : g.state = "menu") (hc : MAX_SNAPSHOTS ≤ g.snapshots.length) :
    (updateGlobalTimer g dt).state = "ending" := by
  unfold updateGlobalTimer
  dsimp only
  by_cases h0 : 0 < g.global_time
  · rw [if_pos h0]
    by_cases hz : ({ g with global_time := max 0 (g.global_time - dt) } : Game).global_time = 0
    · rw [if_pos hz]
      simp only [apply_ite Game.state, startEnding_state, ite_self]
    · rw [if_neg hz]
      dsimp only
      rw [if_pos (And.intro hc hs)]
      exact startEnding_state _
  · rw [if_neg h0]
    rw [if_pos (And.intro hc hs)]
    exact startEnding_state _

lemma updateScene_global_time (g : Game) (dt : ℚ) :
    (updateScene g dt).global_time = g.global_time := by
  unfold updateScene
  dsimp only
  by_cases h0 : g.current_scene_index < 0
  · rw [if_pos h0]
  · rw [if_neg h0]
    simp only [apply_ite Game.global_time, ite_self]

lemma updateScene_state (g : Game) (dt : ℚ) :
    (updateScene g dt).state = g.state := by
  unfold updateScene
  dsimp only
  by_cases h0 : g.current_scene_index < 0
  · rw [if_pos h0]
  · rw [if_neg h0]
    simp only [apply_ite Game.state, ite_self]

lemma tickUpdate_menu (g : Game) (dt : ℚ) (hs : g.state = "menu") :
    tickUpdate g dt =
      { updateGlobalTimer g dt with menu_time := (updateGlobalTimer g dt).menu_time + dt } := by
  unfold tickUpdate
  rw [hs]
  rw [if_neg (by decide), if_pos rfl]

lemma tickUpdate_scene (g : Game) (dt : ℚ) (hs : g.state = "scene") :
    tickUpdate g dt = updateScene (updateGlobalTimer g dt) dt := by
  unfold tickUpdate
  rw [hs]
  rw [if_neg (by decide), if_neg (by decide), if_neg (by decide), if_pos rfl]

lemma tickUpdate_popup (g : Game) (dt : ℚ) (hs : g.state = "artifact_popup") :
    tickUpdate g dt = updateGlobalTimer g dt := by
  unfold tickUpdate
  rw [hs]
  rw [if_neg (by decide), if_neg (by decide), if_neg (by decide), if_neg (by decide),
    if_pos rfl]

/-! ## Claim theorems -/

/-- C10 (counterexample): on `"q.png5.png"` the parser deletes the inner
`".png"` occurrence as well and returns `("queen", 5)`, while the claim's
"suffix removed" reading yields `("queen", 0)`. -/
theorem c10_parse_counterexample :
    parseArtifact "q.png5.png" = ("queen", 5) ∧
    parseArtifactSpecClaim "q.png5.png" = ("queen", 0) ∧
    parseArtifact "q.png5.png" ≠ parseArtifactSpecClaim "q.png5.png" := by
  refine ⟨by decide, by decide, by decide⟩

/-- C10 (amended): artifact-key parsing is total and deterministic on
ASCII inputs, and for every ASCII input string agrees with the claim's
description once "the `.png` suffix removed" is amended to "every
occurrence of `.png` removed": `("", 0)` when the resulting base is
`r`+digits, empty, or does not start with q/c/g; otherwise the suspect
mapped from the first letter together with the value of the maximal digit
run following it (0 when empty).  The ASCII scope is necessary: on
non-ASCII inputs the source accepts Unicode decimal digits (`"q٢.png"`
parses to `("queen", 2)`) and raises `ValueError` on digit-but-not-decimal
characters (`"q².png"`), so the unrestricted claim is false of the
program. -/
theorem c10_parse_total_amended (s : String) (_h : ∀ c ∈ s.data, c.toNat < 128) :
    parseArtifact s = parseArtifactSpecAmended s :=
  parseArtifact_eq_specAmended s

/-- Witness for C10 (amended): a concrete ASCII filename satisfies the
scope hypothesis and the two readings agree on it. -/
theorem c10_parse_total_amended_witness :
    (∀ c ∈ ("c5-2.png" : String).data, c.toNat < 128) ∧
    parseArtifact "c5-2.png" = parseArtifactSpecAmended "c5-2.png" :=
  ⟨by decide, c10_parse_total_amended "c5-2.png" (by decide)⟩

/-- C1: for every culprit, scene index and artifact spec of that scene,
`_build_scenes` substitutes the decoy (points 0, suspect id `""`, the
mapped replacement filename) exactly when the parsed suspect differs from
the culprit, the parsed points are 5 or 10, and `REPLACEMENT_MAP` has an
entry for (scene, filename); in every other case (including all artifacts
worth fewer than 5 points) the original filename with its parsed suspect
id and points is kept.  The decision is a pure function of the culprit,
fixed at scene construction. -/
theorem c1_decoy_replacement_rule :
    ∀ k : Fin 3, ∀ i : Fin 6, ∀ j : Fin 3,
      (if (parseArtifact ((artifact_specs.getD i []).getD j "")).1 ≠ culpritIds.getD k "" ∧
          ((parseArtifact ((artifact_specs.getD i []).getD j "")).2 = 5 ∨
           (parseArtifact ((artifact_specs.getD i []).getD j "")).2 = 10) ∧
          (replacementLookup i ((artifact_specs.getD i []).getD j "")).isSome then
        buildArtifact (culpritIds.getD k "") i ((artifact_specs.getD i []).getD j "") =
          { spec_filename :=
              (replacementLookup i ((artifact_specs.getD i []).getD j "")).getD
                ((artifact_specs.getD i []).getD j ""),
            suspect_id := "", points := 0, tags := tag_options.getD i [] }
       else
        buildArtifact (culpritIds.getD k "") i ((artifact_specs.getD i []).getD j "") =
          { spec_filename := (artifact_specs.getD i []).getD j "",
            suspect_id := (parseArtifact ((artifact_specs.getD i []).getD j "")).1,
            points := (parseArtifact ((artifact_specs.getD i []).getD j "")).2,
            tags := tag_options.getD i [] }) := by
  decide

/-- C4: for every culprit, summing each suspect's points over all 6 built
scenes (the maximum total reachable for that suspect), the culprit reaches
at least the threshold 12 while both non-culprits stay below it; moreover
the replacement table covers every 5- or 10-point artifact of every
non-culprit suspect. -/
theorem c4_threshold_reachability :
    (∀ k : Fin 3, ∀ j : Fin 3,
      let killer := culpritIds.getD k ""
      let sid := culpritIds.getD j ""
      if sid = killer then EVIDENCE_POINTS_REQUIRED ≤ totalSuspectPoints killer sid
      else totalSuspectPoints killer sid < EVIDENCE_POINTS_REQUIRED) ∧
    (∀ k : Fin 3, ∀ i : Fin 6, ∀ j : Fin 3,
      let killer := culpritIds.getD k ""
      let fn := (artifact_specs.getD i []).getD j ""
      let sp := parseArtifact fn
      if sp.1 ≠ killer ∧ (sp.2 = 5 ∨ sp.2 = 10) then
        (replacementLookup i fn).isSome = true
      else True) := by
  constructor
  · decide
  · decide

/-- C2: `_start_ending` computes per-suspect totals as sums over the
snapshots, enters the ending state, and selects the 3-slide failure branch
(red crystal, dead king, then the culprit-specific culprit-free slide)
exactly when no suspect's total reaches 12, otherwise the 4-slide success
branch ending in the interactive accusation slide; the three culprit-free
scripts are pairwise distinct.  With zero snapshots all totals are 0, so
the failure branch is selected. -/
theorem c2_win_loss_gate (g : Game) :
    let g2 := startEnding g
    g2.state = "ending" ∧
    (if totalQueen g.snapshots < EVIDENCE_POINTS_REQUIRED ∧
        totalChef g.snapshots < EVIDENCE_POINTS_REQUIRED ∧
        totalGoblin g.snapshots < EVIDENCE_POINTS_REQUIRED then
      g2.ending_slides =
        [{ image := "red_cryst.png", script := BAD_ENDING_RED_CRYSTAL },
         { image := "dead_king.png", script := BAD_ENDING_DEAD_KING },
         { image := killerBeImage g.culprit_id, script := badIFreeScript g.culprit_id,
           exit_prompt := true }]
     else
      g2.ending_slides =
        [{ image := "green_cryst.png", script := WIN_PATH_G1_GREEN_CRYSTAL },
         { image := "the_options.png", script := WIN_PATH_G2_OPTIONS, show_memories := true },
         { image := "escort_in.png", script := WIN_PATH_G3_ESCORT, show_memories := true },
         { image := "the_culprits.png", script := WIN_PATH_G4_CULPRITS, show_memories := true,
           accept_123 := true }]) ∧
    (badIFreeScript "queen" = BAD_ENDING_QUEEN_FREE ∧
     badIFreeScript "goblin" = BAD_ENDING_GOBLIN_FREE ∧
     badIFreeScript "chef" = BAD_ENDING_CHEF_FREE ∧
     BAD_ENDING_QUEEN_FREE ≠ BAD_ENDING_GOBLIN_FREE ∧
     BAD_ENDING_QUEEN_FREE ≠ BAD_ENDING_CHEF_FREE ∧
     BAD_ENDING_GOBLIN_FREE ≠ BAD_ENDING_CHEF_FREE) := by
  refine ⟨rfl, ?_, rfl, rfl, rfl, by decide, by decide, by decide⟩
  by_cases h : totalQueen g.snapshots < EVIDENCE_POINTS_REQUIRED ∧
      totalChef g.snapshots < EVIDENCE_POINTS_REQUIRED ∧
      totalGoblin g.snapshots < EVIDENCE_POINTS_REQUIRED
  · have hw : ¬(EVIDENCE_POINTS_REQUIRED ≤ totalQueen g.snapshots ∨
        EVIDENCE_POINTS_REQUIRED ≤ totalChef g.snapshots ∨
        EVIDENCE_POINTS_REQUIRED ≤ totalGoblin g.snapshots) := by omega
    simp [h, startEnding, hw]
  · have hw : (EVIDENCE_POINTS_REQUIRED ≤ totalQueen g.snapshots ∨
        EVIDENCE_POINTS_REQUIRED ≤ totalChef g.snapshots ∨
        EVIDENCE_POINTS_REQUIRED ≤ totalGoblin g.snapshots) := by omega
    simp [h, startEnding, hw]

/-- C3: when the `mage_cooking.png` slide finishes its fade-out, the
update appends exactly the 4-slide good ending (green crystal, dead king,
rejoicing, exit-flagged coronation) if the 1/2/3 choice (goblin/chef/queen)
names the culprit, and exactly the 3-slide false-judgement branch
(red crystal variant, dead king variant, exit-flagged culprit-free slide
with the script specific to the real culprit) otherwise; the three
culprit-free scripts are pairwise distinct. -/
theorem c3_outcome_resolution (g : Game) (dt : ℚ)
    (hph : g.ending_phase = "fade_out")
    (ht : ENDING_FADE_OUT ≤ g.ending_timer + dt)
    (hidx : g.ending_index < g.ending_slides.length)
    (himg : (g.ending_slides.getD g.ending_index { image := "", script := [] }).image
      = "mage_cooking.png") :
    let g2 := updateEnding g dt
    let isMatch := (g.ending_player_choice = 1 ∧ g.culprit_id = "goblin")
      ∨ (g.ending_player_choice = 2 ∧ g.culprit_id = "chef")
      ∨ (g.ending_player_choice = 3 ∧ g.culprit_id = "queen")
    (isMatch → g2.ending_slides = g.ending_slides ++
        [{ image := "green_cryst.png", script := GOOD_ENDING_GREEN_CRYSTAL },
         { image := "dead_king.png", script := GOOD_ENDING_DEAD_KING },
         { image := "ge1.png", script := GOOD_ENDING_GE1_REJOICING },
         { image := "ge2.png", script := GOOD_ENDING_GE2_CORONATION, exit_prompt := true }]) ∧
    (¬isMatch → g2.ending_slides = g.ending_slides ++
        [{ image := "red_cryst.png", script := BAD_ENDING_II_RED_CRYSTAL },
         { image := "dead_king.png", script := BAD_ENDING_II_DEAD_KING },
         { image := killerBeImage g.culprit_id, script := badIIFreeScript g.culprit_id,
           exit_prompt := true }]) ∧
    (badIIFreeScript "queen" = BAD_ENDING_II_QUEEN_FREE ∧
     badIIFreeScript "chef" = BAD_ENDING_II_CHEF_FREE ∧
     badIIFreeScript "goblin" = BAD_ENDING_II_GOBLIN_FREE ∧
     BAD_ENDING_II_QUEEN_FREE ≠ BAD_ENDING_II_CHEF_FREE ∧
     BAD_ENDING_II_QUEEN_FREE ≠ BAD_ENDING_II_GOBLIN_FREE ∧
     BAD_ENDING_II_CHEF_FREE ≠ BAD_ENDING_II_GOBLIN_FREE) := by
  intro g2 isMatch
  have hmain : g2.ending_slides =
      g.ending_slides ++ outcomeSlides g.culprit_id (endingChoiceCorrect g) := by
    show (updateEnding g dt).ending_slides = _
    rw [updateEnding_fadeOut_done g dt hph ht]
    exact endingFadeOutDone_slides_mage _ hidx himg
  refine ⟨?_, ?_, rfl, rfl, rfl, by decide, by decide, by decide⟩
  · intro hm
    have hb : endingChoiceCorrect g = true := (endingChoiceCorrect_true_iff g).mpr hm
    rw [hmain, hb]
    rfl
  · intro hm
    have hb : endingChoiceCorrect g = false := by
      rcases hx : endingChoiceCorrect g with _ | _
      · rfl
      · exact absurd ((endingChoiceCorrect_true_iff g).mp hx) hm
    rw [hmain, hb]
    rfl

/-- Witness for C3: with culprit chef, choice 2 on the sample state, the
good ending is appended. -/
theorem c3_outcome_resolution_witness :
    (updateEnding c3SampleEnding 1).ending_slides = c3SampleEnding.ending_slides ++
      [{ image := "green_cryst.png", script := GOOD_ENDING_GREEN_CRYSTAL },
       { image := "dead_king.png", script := GOOD_ENDING_DEAD_KING },
       { image := "ge1.png", script := GOOD_ENDING_GE1_REJOICING },
       { image := "ge2.png", script := GOOD_ENDING_GE2_CORONATION, exit_prompt := true }] :=
  (c3_outcome_resolution c3SampleEnding 1 rfl
    (by norm_num [c3SampleEnding, sampleGame, ENDING_FADE_OUT]) (by decide)
    rfl).1 (Or.inr (Or.inl ⟨rfl, rfl⟩))

/-- C5 (counterexample): with ledger `[A(scene1, artifactX.png),
B(scene1, artifactY.png)]` and the popup open on `artifactX.png` of
`scene1`, the action is permitted (A matches), but the removal loop only
matches the scene label and removes the most recent `B`, leaving `[A]` —
the claim's removal rule (trigger must also match) would remove `A`,
leaving `[B]`. -/
theorem c5_undo_counterexample :
    canUncrystallizeHere c5CounterGame = true ∧
    snapB.scene_label = "scene1" ∧
    snapB.trigger_artifact_filename = some "artifactY.png" ∧
    c5CounterGame.popup_artifact_filename = "artifactX.png" ∧
    (uncrystallizeClick c5CounterGame).snapshots = [snapA] ∧
    (uncrystallizeClick c5CounterGame).snapshots ≠ [snapB] := by decide

/-- C5 (amended): uncrystallize is permitted exactly as the claim says
(some snapshot of the popup's scene label whose trigger is the popup's
artifact or empty), but when performed it removes the most recently
appended snapshot whose scene label matches — the trigger is *not*
consulted during removal — leaving all other snapshots in order, and
returns to the scene state.  The spec's example `[A(scene1, artifactX),
B(scene1, artifactY), C(scene2, none)]`, undo(scene1, artifactY), still
removes exactly `B` leaving `[A, C]`. -/
theorem c5_undo_amended (g : Game) (hperm : canUncrystallizeHere g = true) :
    let label := (g.scenes.getD g.popup_scene_index.toNat ⟨"", []⟩).label
    (0 ≤ g.popup_scene_index ∧
      ∃ s ∈ g.snapshots, s.scene_label = label ∧
        (s.trigger_artifact_filename = none ∨
         s.trigger_artifact_filename = some g.popup_artifact_filename)) ∧
    (∃ l₁ s l₂, g.snapshots = l₁ ++ s :: l₂ ∧ s.scene_label = label ∧
        (∀ t ∈ l₂, t.scene_label ≠ label) ∧
        (uncrystallizeClick g).snapshots = l₁ ++ l₂) ∧
    (uncrystallizeClick g).state = "scene" ∧
    canUncrystallizeHere c5ExampleGame = true ∧
    (uncrystallizeClick c5ExampleGame).snapshots = [snapA, snapC] := by
  intro label
  have hidx : ¬ g.popup_scene_index < 0 := by
    intro hx
    unfold canUncrystallizeHere at hperm
    rw [if_pos hx] at hperm
    exact Bool.false_ne_true hperm
  have hany : g.snapshots.any (fun s =>
      s.scene_label == label &&
        (s.trigger_artifact_filename == none ||
         s.trigger_artifact_filename == some g.popup_artifact_filename)) = true := by
    unfold canUncrystallizeHere at hperm
    rw [if_neg hidx] at hperm
    exact hperm
  have hex : ∃ s ∈ g.snapshots, s.scene_label = label ∧
      (s.trigger_artifact_filename = none ∨
       s.trigger_artifact_filename = some g.popup_artifact_filename) := by
    obtain ⟨s, hs, hpred⟩ := List.any_eq_true.mp hany
    refine ⟨s, hs, ?_⟩
    simpa [Bool.and_eq_true, Bool.or_eq_true, beq_iff_eq] using hpred
  have hexl : ∃ s ∈ g.snapshots, s.scene_label = label := by
    obtain ⟨s, hs, hl, _⟩ := hex
    exact ⟨s, hs, hl⟩
  have hresult : (uncrystallizeClick g).snapshots =
      popMostRecentWithLabel label g.snapshots := by
    unfold uncrystallizeClick
    rw [if_pos hperm]
    rfl
  obtain ⟨l₁, s, l₂, he, hl, hn, hv⟩ := popMostRecentWithLabel_split label g.snapshots hexl
  refine ⟨⟨by omega, hex⟩, ⟨l₁, s, l₂, he, hl, hn, by rw [hresult, hv]⟩, ?_, by decide, by decide⟩
  unfold uncrystallizeClick
  rw [if_pos hperm]
  rfl

/-- Witness for C5 (amended): on the spec's example ledger the action is
permitted and returns to the scene state. -/
theorem c5_undo_amended_witness : (uncrystallizeClick c5ExampleGame).state = "scene" := by
  have h := c5_undo_amended c5ExampleGame (by decide)
  exact h.2.2.1

/-- C6: at the 3-snapshot cap both capture paths (keyboard whole-scene
capture, popup single-artifact crystallize, and the popup crystallize
click guard) return the state unchanged: same ledger (hence same derived
totals), no error, no transition to `snapshot_effect`. -/
theorem c6_snapshot_cap (g : Game) (h : MAX_SNAPSHOTS ≤ g.snapshots.length) :
    takeSnapshot g = g ∧ takeSnapshotFromPopup g = g ∧ crystallizeClick g = g := by
  have h2 : ¬ g.snapshots.length < MAX_SNAPSHOTS := by omega
  refine ⟨?_, ?_, ?_⟩
  · unfold takeSnapshot; rw [if_pos h]
  · unfold takeSnapshotFromPopup; rw [if_pos h]
  · unfold crystallizeClick; rw [if_neg h2]

/-- Witness for C6: a concrete game with exactly three snapshots
satisfies the cap hypothesis and the capture is a no-op. -/
theorem c6_snapshot_cap_witness :
    MAX_SNAPSHOTS ≤ c6CapGame.snapshots.length ∧ takeSnapshot c6CapGame = c6CapGame :=
  ⟨by decide, (c6_snapshot_cap c6CapGame (by decide)).1⟩

/-- C7 (counterexample): in the opening, with the first box not yet
revealed (0 of its characters shown), a single right-arrow press advances
to the next box on that same press (text index 0 becomes 1), rather than
only forcing the reveal as the claim states. -/
theorem c7_continue_press_counterexample :
    c7OpeningGame.opening_char_index <
      ((OPENING_SCRIPT.getD c7OpeningGame.opening_slide_index []).getD
        c7OpeningGame.opening_text_index "").length ∧
    c7OpeningGame.opening_text_index = 0 ∧
    (handleKeydown c7OpeningGame Key.kRight).opening_text_index = 1 := by decide

/-- C7 (amended): during a slide's holding phase a single continue press
(right arrow) always forces the current box fully revealed *and* advances
on that same press, regardless of how much was revealed: to the next box
(resetting the reveal) when one remains, and to fade-out on the last box
(in the ending, on a plain non-exit, non-choice slide).  This holds for
the opening and the ending player alike. -/
theorem c7_continue_press_amended :
    (∀ g : Game, g.state = "opening" → g.opening_phase = "holding" →
      g.opening_text_index < (OPENING_SCRIPT.getD g.opening_slide_index []).length →
      (if g.opening_text_index + 1 < (OPENING_SCRIPT.getD g.opening_slide_index []).length then
        (handleKeydown g Key.kRight).opening_text_index = g.opening_text_index + 1 ∧
        (handleKeydown g Key.kRight).opening_char_index = 0
       else
        (handleKeydown g Key.kRight).opening_phase = "fade_out" ∧
        (handleKeydown g Key.kRight).opening_timer = 0)) ∧
    (∀ g : Game, g.state = "ending" → g.ending_phase = "holding" →
      g.ending_index < g.ending_slides.length →
      (g.ending_slides.getD g.ending_index { image := "", script := [] }).exit_prompt = false →
      (g.ending_slides.getD g.ending_index { image := "", script := [] }).accept_123 = false →
      g.ending_text_index <
        (g.ending_slides.getD g.ending_index { image := "", script := [] }).script.length →
      (if g.ending_text_index + 1 <
          (g.ending_slides.getD g.ending_index { image := "", script := [] }).script.length then
        (handleKeydown g Key.kRight).ending_text_index = g.ending_text_index + 1 ∧
        (handleKeydown g Key.kRight).ending_char_index = 0
       else
        (handleKeydown g Key.kRight).ending_phase = "fade_out" ∧
        (handleKeydown g Key.kRight).ending_timer = 0)) := by
  constructor
  · intro g hs hp ht
    by_cases ha : g.opening_text_index + 1 < (OPENING_SCRIPT.getD g.opening_slide_index []).length
    · rw [if_pos ha, handleKeydown_opening_right g hs, openingRightPress_advance g hp ht ha]
      exact ⟨rfl, rfl⟩
    · rw [if_neg ha, handleKeydown_opening_right g hs]
      exact openingRightPress_lastBox g hp ht ha
  · intro g hs hp hidx hexit haccept ht
    by_cases ha : g.ending_text_index + 1 <
        (g.ending_slides.getD g.ending_index { image := "", script := [] }).script.length
    · rw [if_pos ha, handleKeydown_ending g hs Key.kRight (by decide),
        endingKeydown_right_advance g hp hidx hexit haccept ht ha]
      exact ⟨rfl, rfl⟩
    · rw [if_neg ha, handleKeydown_ending g hs Key.kRight (by decide)]
      exact endingKeydown_right_lastBox g hp hidx hexit haccept ht ha

/-- Witness for C7 (amended): on the concrete opening state the press
advances to box 1 with the reveal reset. -/
theorem c7_continue_press_amended_witness :
    (handleKeydown c7OpeningGame Key.kRight).opening_text_index = 1 ∧
    (handleKeydown c7OpeningGame Key.kRight).opening_char_index = 0 := by
  have h := c7_continue_press_amended.1 c7OpeningGame rfl rfl (by decide)
  rw [if_pos (by decide)] at h
  exact h

/-- C8: pressing Escape while the state is `artifact_popup` is a no-op.
The leading `if event.key == K_ESCAPE` branch of the event loop handles
only the opening/scene/menu/ending states and swallows the press, so the
later `artifact_popup and K_ESCAPE` branch that calls
`_close_artifact_popup` is unreachable: the state and the popup context
are left untouched, unlike the close action the claim (and the dead
branch) intend. -/
theorem c8_escape_popup_noop :
    c8PopupGame.state = "artifact_popup" ∧
    handleKeydown c8PopupGame Key.kEscape = c8PopupGame ∧
    (closeArtifactPopup c8PopupGame).state = "scene" ∧
    handleKeydown c8PopupGame Key.kEscape ≠ closeArtifactPopup c8PopupGame := by
  refine ⟨rfl, rfl, rfl, ?_⟩
  intro h
  exact absurd (congrArg Game.state h) (by decide)

/-- C9 (counterexample): on a tick spent in the `snapshot_effect` state —
which the claim includes among the timer-running states — the global
countdown does not decrease: the per-state dispatch calls only
`_update_snapshot_effect` there, never `_update_global_timer`. -/
theorem c9_timer_counterexample :
    c9EffectGame.state = "snapshot_effect" ∧
    (0 : ℚ) < 1 / 10 ∧ 0 < c9EffectGame.global_time ∧
    (tickUpdate c9EffectGame (1 / 10)).global_time = c9EffectGame.global_time := by
  refine ⟨rfl, by norm_num, by norm_num [c9EffectGame, sampleGame], ?_⟩
  rw [tickUpdate_snapshot_effect _ _ rfl, updateSnapshotEffect_global_time]

/-- C9 (amended): on every tick spent in `menu`, `scene` or
`artifact_popup` (but not `snapshot_effect`, where the timer pauses), the
countdown decreases by the tick's elapsed time clamped at zero; a tick
that brings it to (or past) zero enters the ending state, and a tick in
`menu` with the 3-snapshot cap reached also enters the ending state. -/
theorem c9_timer_amended (g : Game) (dt : ℚ)
    (hs : g.state = "menu" ∨ g.state = "scene" ∨ g.state = "artifact_popup") :
    ((0 < g.global_time → (tickUpdate g dt).global_time = max 0 (g.global_time - dt)) ∧
     (g.global_time ≤ 0 → (tickUpdate g dt).global_time = g.global_time) ∧
     (0 < g.global_time → g.global_time - dt ≤ 0 → (tickUpdate g dt).state = "ending") ∧
     (g.state = "menu" → MAX_SNAPSHOTS ≤ g.snapshots.length →
       (tickUpdate g dt).state = "ending")) := by
  have hgt : (tickUpdate g dt).global_time = (updateGlobalTimer g dt).global_time := by
    rcases hs with hm | hsc | hpp
    · rw [tickUpdate_menu g dt hm]
    · rw [tickUpdate_scene g dt hsc, updateScene_global_time]
    · rw [tickUpdate_popup g dt hpp]
  have hst : (tickUpdate g dt).state = (updateGlobalTimer g dt).state := by
    rcases hs with hm | hsc | hpp
    · rw [tickUpdate_menu g dt hm]
    · rw [tickUpdate_scene g dt hsc, updateScene_state]
    · rw [tickUpdate_popup g dt hpp]
  refine ⟨?_, ?_, ?_, ?_⟩
  · intro h0
    rw [hgt, updateGlobalTimer_global_time, if_pos h0]
  · intro h0
    rw [hgt, updateGlobalTimer_global_time, if_neg (not_lt.mpr h0)]
  · intro h0 hz
    rw [hst]
    exact updateGlobalTimer_state_zero g dt h0 hz
  · intro hm hc
    rw [hst]
    exact updateGlobalTimer_state_cap g dt hm hc

/-- Witness for C9 (amended): one 1-second tick in the menu with 100 time
units left leaves `max 0 (100 - 1)` on the clock. -/
theorem c9_timer_amended_witness :
    (tickUpdate c9MenuGame 1).global_time = max 0 (c9MenuGame.global_time - 1) :=
  (c9_timer_amended c9MenuGame 1 (Or.inl rfl)).1 (by norm_num [c9MenuGame, sampleGame])

end TruthHalfLife
